import Mathlib

/-
Verification of the MedLit PubMed retrieval pipeline.

This file gives a shallow embedding, in Lean 4, of the data model and the
operations of the medlit repository: the query model
(src/medlit/models/query.py), the evidence model
(src/medlit/models/evidence.py), the XML parser
(src/medlit/pubmed/parser.py), the client composition
(src/medlit/pubmed/client.py), the agent boundary
(src/medlit/agent/medlit_agent.py), the evidence-fetch tool
(src/medlit/agent/tools/evidence_fetch.py) and the citation-accuracy
evaluator (tests/evals/evaluators.py).

Conventions of the embedding:
- Python exceptions are modelled with Except String; Python None with Option.
- Python strings are Lean String; truthiness of a string is nonemptiness.
- XML documents are modelled at the ElementTree level: the external
  ET.fromstring call is modelled as an input of type Except String Elem,
  where the error case stands for an ET.ParseError on syntactically
  invalid XML.
- datetime.date is modelled by PyDate together with mkDate, which enforces
  the constructor range checks of datetime.date (year 1..9999, month 1..12,
  day bounded by the month length with leap years).
-/

/-! ## Python semantics helpers -/

/-- Containment of one character list in another as a contiguous run. -/
def pySubstrAux (needle : List Char) : List Char → Bool
  | [] => needle.isEmpty
  | c :: rest => needle.isPrefixOf (c :: rest) || pySubstrAux needle rest

/-- Python substring test: needle in haystack. -/
def pyIn (needle haystack : String) : Bool :=
  pySubstrAux needle.toList haystack.toList

/-- ASCII whitespace class of the Python regex escape for whitespace. -/
def isPySpace (c : Char) : Bool :=
  c = ' ' ∨ c = '\t' ∨ c = '\n' ∨ c = '\r' ∨ c = '\x0b' ∨ c = '\x0c'

/-- Python str.lower for ASCII text. -/
def pyLower (s : String) : String :=
  (s.toList.map Char.toLower).asString

/-- Python str.strip with the default whitespace set, for ASCII text. -/
def pyStrip (s : String) : String :=
  (((s.toList.dropWhile isPySpace).reverse.dropWhile isPySpace).reverse).asString

/-- Python int(str) for plain decimal literals: surrounding whitespace is
stripped, an optional sign is allowed, then one or more ASCII digits. -/
def pyInt (s : String) : Option Int :=
  let chars := (pyStrip s).toList
  match chars with
  | [] => none
  | c :: rest =>
    let signDigits : Int × List Char :=
      if c = '-' then (-1, rest) else if c = '+' then (1, rest) else (1, chars)
    if signDigits.2 ≠ [] ∧ signDigits.2.all Char.isDigit then
      some (signDigits.1 * (Int.ofNat
        (signDigits.2.foldl (fun acc d => acc * 10 + (d.toNat - 48)) 0)))
    else
      none

/-! ## Dates (datetime.date model) -/

/-- A constructed Python datetime.date value. -/
structure PyDate where
  year : Nat
  month : Nat
  day : Nat
deriving DecidableEq, Repr

/-- Gregorian leap-year test, as used by datetime.date. -/
def isLeapYear (y : Nat) : Bool :=
  y % 4 = 0 ∧ (y % 100 ≠ 0 ∨ y % 400 = 0)

/-- Number of days of a month, as validated by the datetime.date constructor. -/
def daysInMonth (y m : Nat) : Nat :=
  if m = 2 then (if isLeapYear y then 29 else 28)
  else if m = 4 ∨ m = 6 ∨ m = 9 ∨ m = 11 then 30
  else 31

/-- The datetime.date constructor: validates ranges, returns none where the
Python constructor raises ValueError. -/
def mkDate (y m d : Int) : Option PyDate :=
  if 1 ≤ y ∧ y ≤ 9999 ∧ 1 ≤ m ∧ m ≤ 12 ∧ 1 ≤ d ∧ d ≤ Int.ofNat (daysInMonth y.toNat m.toNat) then
    some ⟨y.toNat, m.toNat, d.toNat⟩
  else
    none

/-- Python date comparison a < b (lexicographic on year, month, day). -/
def PyDate.lt (a b : PyDate) : Bool :=
  a.year < b.year ∨
    (a.year = b.year ∧ (a.month < b.month ∨ (a.month = b.month ∧ a.day < b.day)))

/-- Python date comparison a <= b. -/
def PyDate.le (a b : PyDate) : Bool :=
  PyDate.lt a b ∨ a = b

/-! ## Evidence model (src/medlit/models/evidence.py) -/

/-- Quality level of evidence based on study design. -/
inductive EvidenceQuality where
  | HIGH
  | MODERATE
  | LOW
  | UNKNOWN
deriving DecidableEq, Repr

/-- The string value of each enum member. -/
def EvidenceQuality.value : EvidenceQuality → String
  | .HIGH => "high"
  | .MODERATE => "moderate"
  | .LOW => "low"
  | .UNKNOWN => "unknown"

/-- The enum call EvidenceQuality(value): looks a member up by value and
raises ValueError when no member has that value. -/
def EvidenceQuality.ofValue (s : String) : Except String EvidenceQuality :=
  if s = "high" then .ok .HIGH
  else if s = "moderate" then .ok .MODERATE
  else if s = "low" then .ok .LOW
  else if s = "unknown" then .ok .UNKNOWN
  else .error ("is not a valid EvidenceQuality: " ++ s)

/-- EvidenceQuality.from_article_type: infer evidence quality from a single
article type string. A missing or empty type is UNKNOWN; otherwise the
lowercased type is tested for substrings in a priority cascade. -/
def EvidenceQuality.from_article_type (article_type : Option String) : EvidenceQuality :=
  match article_type with
  | none => .UNKNOWN
  | some t =>
    if t = "" then .UNKNOWN
    else
      let l := pyLower t
      if ["meta-analysis", "systematic review"].any (fun p => pyIn p l) then .HIGH
      else if ["randomized", "rct", "clinical trial"].any (fun p => pyIn p l) then .MODERATE
      else if ["cohort", "case-control", "case report", "case series", "review"].any
          (fun p => pyIn p l) then .LOW
      else .UNKNOWN

/-- Citation reference for evidence. -/
structure Citation where
  pmid : String
  title : String
  authors : String := ""
  year : Option Int := none
  journal : String := ""
deriving DecidableEq, Repr

/-- Synthesized evidence from literature. -/
structure Evidence where
  summary : String
  quality : EvidenceQuality := .UNKNOWN
  supporting_citations : List Citation := []
  conflicting_citations : List Citation := []
  limitations : List String := []
  consensus : Option String := none
deriving DecidableEq, Repr

/-! ## Article model (src/medlit/models/article.py) -/

/-- Author information from PubMed. -/
structure Author where
  last_name : String
  first_name : String := ""
  initials : String := ""
  affiliation : Option String := none
deriving DecidableEq, Repr

/-- Author.citation_name: name in citation format. -/
def Author.citation_name (a : Author) : String :=
  if a.initials ≠ "" then a.last_name ++ " " ++ a.initials else a.last_name

/-- PubMed article metadata and content. -/
structure Article where
  pmid : String
  title : String
  abstract : String := ""
  authors : List Author := []
  journal : String := ""
  journal_abbrev : String := ""
  publication_date : Option PyDate := none
  year : Option Int := none
  doi : Option String := none
  article_type : Option String := none
  mesh_terms : List String := []
  keywords : List String := []
deriving DecidableEq, Repr

/-- Article.pubmed_url. -/
def Article.pubmed_url (a : Article) : String :=
  "https://pubmed.ncbi.nlm.nih.gov/" ++ a.pmid

/-- Article.first_author: citation name of the first author, or Unknown. -/
def Article.first_author (a : Article) : String :=
  match a.authors with
  | au :: _ => au.citation_name
  | [] => "Unknown"

/-! ## Query model (src/medlit/models/query.py) -/

/-- Filters for PubMed search. -/
structure SearchFilters where
  min_date : Option PyDate := none
  max_date : Option PyDate := none
  article_types : List String := []
  species : String := "humans"
  language : String := "english"
deriving DecidableEq, Repr

/-- Pydantic construction of SearchFilters with the validate_dates
model validator: raises when both dates are present and min_date > max_date. -/
def SearchFilters.mk_validated (minD maxD : Option PyDate) (ats : List String)
    (sp lang : String) : Except String SearchFilters :=
  match minD, maxD with
  | some a, some b =>
    if PyDate.lt b a then .error "min_date must be before max_date"
    else .ok ⟨minD, maxD, ats, sp, lang⟩
  | _, _ => .ok ⟨minD, maxD, ats, sp, lang⟩

/-- SearchFilters.to_query_filters: convert to PubMed query filter strings. -/
def SearchFilters.to_query_filters (f : SearchFilters) : List String :=
  (if f.species ≠ "" then [f.species ++ "[filter]"] else []) ++
  (if f.language ≠ "" then [f.language ++ "[la]"] else []) ++
  f.article_types.map (fun t => t ++ "[pt]")

/-- Structured PubMed search query. -/
structure SearchQuery where
  original_question : String
  search_terms : List String := []
  mesh_terms : List String := []
  pubmed_query : String := ""
  filters : SearchFilters := {}
  max_results : Nat := 8
deriving DecidableEq, Repr

/-- SearchQuery.build_query: build the full PubMed query string with filters. -/
def SearchQuery.build_query (q : SearchQuery) : String :=
  let parts : List String :=
    if q.pubmed_query ≠ "" then
      ["(" ++ q.pubmed_query ++ ")"]
    else if q.mesh_terms ≠ [] then
      ["(" ++ String.intercalate " OR " (q.mesh_terms.map (fun t => t ++ "[MeSH]")) ++ ")"]
    else if q.search_terms ≠ [] then
      ["(" ++ String.intercalate " AND " q.search_terms ++ ")"]
    else
      []
  String.intercalate " AND " (parts ++ q.filters.to_query_filters)

/-! ## XML element trees (xml.etree.ElementTree model)

An Elem carries a tag, an attribute list, the text directly after the
opening tag, the tail text directly after the closing tag, and the child
elements in document order. -/

inductive Elem where
  | mk (tag : String) (attrs : List (String × String)) (text : Option String)
      (tail : Option String) (children : List Elem)

def Elem.tag : Elem → String
  | .mk t _ _ _ _ => t

def Elem.attrs : Elem → List (String × String)
  | .mk _ a _ _ _ => a

def Elem.text : Elem → Option String
  | .mk _ _ x _ _ => x

def Elem.tail : Elem → Option String
  | .mk _ _ _ x _ => x

def Elem.children : Elem → List Elem
  | .mk _ _ _ _ cs => cs

mutual

/-- All proper descendants of an element in document (preorder) order. -/
def Elem.descendants : Elem → List Elem
  | .mk _ _ _ _ cs => descendantsList cs

/-- Concatenation of each element of the list with its descendants. -/
def descendantsList : List Elem → List Elem
  | [] => []
  | c :: cs => c :: (Elem.descendants c ++ descendantsList cs)

end

/-- Element.findall with a descendant path: all descendants with the tag,
in document order. -/
def Elem.findallDesc (e : Elem) (t : String) : List Elem :=
  e.descendants.filter (fun c => c.tag = t)

/-- Element.find with a descendant path: the first descendant with the tag. -/
def Elem.findDesc (e : Elem) (t : String) : Option Elem :=
  (e.findallDesc t).head?

/-- Element.findall with a plain tag path: the direct children with the tag. -/
def Elem.findallChild (e : Elem) (t : String) : List Elem :=
  e.children.filter (fun c => c.tag = t)

/-- Element.find with a plain tag path: the first direct child with the tag. -/
def Elem.findChild (e : Elem) (t : String) : Option Elem :=
  (e.findallChild t).head?

/-- Element.get without a default: attribute lookup returning None when the
attribute is absent. -/
def Elem.attr (e : Elem) (key : String) : Option String :=
  (e.attrs.find? (fun p => p.1 = key)).map Prod.snd

/-- Element.get with a default value. -/
def Elem.attrD (e : Elem) (key dflt : String) : String :=
  (e.attr key).getD dflt

mutual

/-- Element.itertext joined to one string: the text of the element, then
recursively the itertext of each child followed by its tail. -/
def Elem.itertext : Elem → String
  | .mk _ _ text _ cs => text.getD "" ++ itertextList cs

/-- The itertext-and-tail contribution of a child list. -/
def itertextList : List Elem → String
  | [] => ""
  | c :: cs => Elem.itertext c ++ (Elem.tail c).getD "" ++ itertextList cs

end

/-! ## XML parser (src/medlit/pubmed/parser.py) -/

/-- parse_search_results: parse an esearch XML response to extract PMIDs.
The input models the result of ET.fromstring, with the error case standing
for a raised ET.ParseError, which the function catches and turns into an
empty list. -/
def parse_search_results (xml : Except String Elem) : List String :=
  match xml with
  | .error _ => []
  | .ok root =>
    match root.findDesc "IdList" with
    | none => []
    | some id_list =>
      (id_list.findallChild "Id").filterMap (fun id_elem =>
        match id_elem.text with
        | some t => if t ≠ "" then some t else none
        | none => none)

/-- _get_text_content: all text content of an element, nested elements
included, stripped of surrounding whitespace. -/
def _get_text_content (e : Elem) : String :=
  pyStrip e.itertext

/-- _parse_abstract: parse an abstract, handling structured abstracts. -/
def _parse_abstract (article_info : Elem) : String :=
  match article_info.findDesc "Abstract" with
  | none => ""
  | some abstract_elem =>
    let parts := (abstract_elem.findallDesc "AbstractText").foldl
      (fun acc text_elem =>
        let label := text_elem.attrD "Label" ""
        let text := _get_text_content text_elem
        if label ≠ "" ∧ text ≠ "" then acc ++ [label ++ ": " ++ text]
        else if text ≠ "" then acc ++ [text]
        else acc) []
    String.intercalate "\n\n" parts

/-- _parse_authors: parse the author list. Authors without a last name are
skipped. A ForeName or Initials element that is present but carries no text
makes the pydantic Author construction receive None for a plain string
field, which raises a ValidationError; this is the error case. -/
def _parse_authors (article_info : Elem) : Except String (List Author) :=
  match article_info.findDesc "AuthorList" with
  | none => .ok []
  | some author_list =>
    (author_list.findallChild "Author").foldlM (fun acc author_elem =>
      match author_elem.findChild "LastName" with
      | none => .ok acc
      | some last_name_elem =>
        match last_name_elem.text with
        | none => .ok acc
        | some lname =>
          if lname = "" then .ok acc
          else
            let fname : Option String :=
              match author_elem.findChild "ForeName" with
              | none => some ""
              | some e => e.text
            let inits : Option String :=
              match author_elem.findChild "Initials" with
              | none => some ""
              | some e => e.text
            let affiliation : Option String :=
              (author_elem.findDesc "Affiliation").bind Elem.text
            match fname, inits with
            | some f, some i =>
              .ok (acc ++ [{ last_name := lname, first_name := f, initials := i,
                             affiliation := affiliation }])
            | _, _ => .error "ValidationError: Input should be a valid string"
      ) []

/-- The month_map of _parse_month. -/
def monthMap : List (String × Int) :=
  [("jan", 1), ("feb", 2), ("mar", 3), ("apr", 4),
   ("may", 5), ("jun", 6), ("jul", 7), ("aug", 8),
   ("sep", 9), ("oct", 10), ("nov", 11), ("dec", 12)]

/-- _parse_month: parse a month string, numeric or abbreviated; an
unrecognized abbreviation falls back to 1. -/
def _parse_month (month_str : String) : Int :=
  match pyInt month_str with
  | some n => n
  | none =>
    let key := ((pyLower month_str).toList.take 3).asString
    ((monthMap.find? (fun p => p.1 = key)).map Prod.snd).getD 1

/-- The month a date element resolves to: 1 when the Month child is absent
or has no truthy text, else _parse_month of its text. -/
def monthFromElem (date_elem : Elem) : Int :=
  match date_elem.findChild "Month" with
  | some month_elem =>
    (match month_elem.text with
     | some mtext => if mtext = "" then 1 else _parse_month mtext
     | none => 1)
  | none => 1

/-- The day a date element resolves to: 1 when the Day child is absent, has
no truthy text, or its text is unparseable as an integer. -/
def dayFromElem (date_elem : Elem) : Int :=
  match date_elem.findChild "Day" with
  | some day_elem =>
    (match day_elem.text with
     | some dtext => if dtext = "" then 1 else (pyInt dtext).getD 1
     | none => 1)
  | none => 1

/-- _extract_date_from_element: extract a date from a date element. The year
is mandatory; the month defaults to 1, the day defaults to 1 when absent or
unparseable; a failed date construction keeps the parsed year. -/
def _extract_date_from_element (date_elem : Elem) : Option PyDate × Option Int :=
  match date_elem.findChild "Year" with
  | none => (none, none)
  | some year_elem =>
    match year_elem.text with
    | none => (none, none)
    | some ytext =>
      if ytext = "" then (none, none)
      else
        match pyInt ytext with
        | none => (none, none)
        | some year =>
          match mkDate year (monthFromElem date_elem) (dayFromElem date_elem) with
          | some d => (some d, some year)
          | none => (none, some year)

/-- _parse_publication_date: ArticleDate (electronic publication) first,
falling back to the PubDate under Journal when no year was resolved. -/
def _parse_publication_date (article_info : Elem) : Option PyDate × Option Int :=
  let fromArticleDate : Option PyDate × Option Int :=
    match article_info.findDesc "ArticleDate" with
    | some article_date => _extract_date_from_element article_date
    | none => (none, none)
  match fromArticleDate.2 with
  | some _ => fromArticleDate
  | none =>
    match article_info.findDesc "Journal" with
    | none => fromArticleDate
    | some journal =>
      match journal.findDesc "PubDate" with
      | none => fromArticleDate
      | some pub_date_elem => _extract_date_from_element pub_date_elem

/-- _parse_doi: first a location identifier typed doi, then an alternate
article identifier typed doi. -/
def _parse_doi (article_elem : Elem) : Option String :=
  match (article_elem.findallDesc "ELocationID").find?
      (fun e => e.attr "EIdType" = some "doi" && (e.text.getD "") ≠ "") with
  | some e => e.text
  | none =>
    match (article_elem.findallDesc "ArticleId").find?
        (fun e => e.attr "IdType" = some "doi" && (e.text.getD "") ≠ "") with
    | some e => e.text
    | none => none

/-- The fixed priority order for article types. -/
def priorityTypes : List String :=
  ["Meta-Analysis", "Systematic Review", "Randomized Controlled Trial",
   "Clinical Trial", "Review", "Guideline", "Practice Guideline"]

/-- _parse_article_type: the highest-priority publication type present,
else the first listed type, else none. -/
def _parse_article_type (medline : Elem) : Option String :=
  match medline.findDesc "PublicationTypeList" with
  | none => none
  | some pub_type_list =>
    let found_types := (pub_type_list.findallChild "PublicationType").filterMap
      (fun pt => match pt.text with
        | some t => if t ≠ "" then some t else none
        | none => none)
    match priorityTypes.find? (fun p => found_types.contains p) with
    | some p => some p
    | none => found_types.head?

/-- _parse_mesh_terms: the descriptor names of the mesh heading list. -/
def _parse_mesh_terms (medline : Elem) : List String :=
  match medline.findDesc "MeshHeadingList" with
  | none => []
  | some mesh_list =>
    (mesh_list.findallChild "MeshHeading").filterMap (fun heading =>
      match heading.findChild "DescriptorName" with
      | some d =>
        (match d.text with
         | some t => if t ≠ "" then some t else none
         | none => none)
      | none => none)

/-- _parse_keywords: the keywords of the keyword list. -/
def _parse_keywords (medline : Elem) : List String :=
  match medline.findDesc "KeywordList" with
  | none => []
  | some keyword_list =>
    (keyword_list.findallChild "Keyword").filterMap (fun kw =>
      match kw.text with
      | some t => if t ≠ "" then some t else none
      | none => none)

/-- _parse_single_article: parse one PubmedArticle element. Returns ok none
when the record is dropped (missing citation, identifier or article body),
and an error when a contained pydantic construction raises. -/
def _parse_single_article (article_elem : Elem) : Except String (Option Article) :=
  match article_elem.findDesc "MedlineCitation" with
  | none => .ok none
  | some medline =>
    match medline.findDesc "PMID" with
    | none => .ok none
    | some pmid_elem =>
      match pmid_elem.text with
      | none => .ok none
      | some pmid =>
        if pmid = "" then .ok none
        else
          match medline.findDesc "Article" with
          | none => .ok none
          | some article_info =>
            let title :=
              match article_info.findDesc "ArticleTitle" with
              | some title_elem => _get_text_content title_elem
              | none => ""
            let abstract := _parse_abstract article_info
            match _parse_authors article_info with
            | .error e => .error e
            | .ok authors =>
              let journal : String :=
                match article_info.findDesc "Journal" with
                | none => ""
                | some journal_elem =>
                  match journal_elem.findDesc "Title" with
                  | some jt => (match jt.text with
                    | some t => if t ≠ "" then t else ""
                    | none => "")
                  | none => ""
              let journal_abbrev : String :=
                match article_info.findDesc "Journal" with
                | none => ""
                | some journal_elem =>
                  match journal_elem.findDesc "ISOAbbreviation" with
                  | some ab => (match ab.text with
                    | some t => if t ≠ "" then t else ""
                    | none => "")
                  | none => ""
              let pubDateYear := _parse_publication_date article_info
              let doi := _parse_doi article_elem
              let article_type := _parse_article_type medline
              let mesh_terms := _parse_mesh_terms medline
              let keywords := _parse_keywords medline
              .ok (some { pmid := pmid, title := title, abstract := abstract,
                          authors := authors, journal := journal,
                          journal_abbrev := journal_abbrev,
                          publication_date := pubDateYear.1, year := pubDateYear.2,
                          doi := doi, article_type := article_type,
                          mesh_terms := mesh_terms, keywords := keywords })

/-- The loop body of parse_articles: append the article when the record
parses, keep the accumulator when the record is dropped or its parsing
raises (the caught per-record exception). -/
def parseArticleStep (acc : List Article) (article_elem : Elem) : List Article :=
  match _parse_single_article article_elem with
  | .ok (some a) => acc ++ [a]
  | .ok none => acc
  | .error _ => acc

/-- The per-record outcome kept by parse_articles: the article when the
record parses, nothing when the record is dropped or raises. -/
def parseArticleKeep (article_elem : Elem) : Option Article :=
  match _parse_single_article article_elem with
  | .ok (some a) => some a
  | .ok none => none
  | .error _ => none

/-- parse_articles: parse an efetch XML response into articles. A top-level
parse error yields the empty list; a per-record exception is caught and the
record skipped. -/
def parse_articles (xml : Except String Elem) : List Article :=
  match xml with
  | .error _ => []
  | .ok root =>
    (root.findallDesc "PubmedArticle").foldl parseArticleStep []

/-! ## Response model and constants
(src/medlit/models/response.py, config/constants.py) -/

/-- MEDICAL_DISCLAIMER from config/constants.py, after the final strip. -/
def MEDICAL_DISCLAIMER : String :=
  "**Disclaimer**: This information is synthesized from published medical literature\nand is intended for educational purposes only. It should not be used as a substitute\nfor professional medical advice, diagnosis, or treatment. Always consult with a\nqualified healthcare provider for medical decisions."

/-- Status of the agent response. -/
inductive ResponseStatus where
  | SUCCESS
  | NO_RESULTS
  | ERROR
  | PARTIAL
deriving DecidableEq, Repr

/-- Complete response from the MedLit agent. The timestamp and trace_id
fields carry wall-clock and tracing data and are not modelled. -/
structure AgentResponse where
  question : String
  status : ResponseStatus := .SUCCESS
  answer : String := ""
  evidence : Option Evidence := none
  citations : List Citation := []
  pubmed_query : String := ""
  articles_found : Nat := 0
  articles_analyzed : Nat := 0
  error_message : Option String := none
  disclaimer : String := ""
deriving DecidableEq, Repr

/-! ## PubMed client composition (src/medlit/pubmed/client.py)

The network is modelled by a PubMedEnv: the identifier list the esearch
round trip would produce, and the article list each efetch round trip would
produce. The trace of outbound operations is returned alongside the result
so that quantified statements can speak about which calls were made. -/

/-- One outbound PubMed operation. -/
inductive PubMedCall where
  | search
  | fetch (pmids : List String)
deriving DecidableEq, Repr

/-- The modelled external world of one client session. -/
structure PubMedEnv where
  searchPmids : List String
  fetchResult : List String → List Article

/-- PubMedClient.search_and_fetch: search, short-circuit on an empty
identifier list, otherwise fetch. The second component is the trace of
operations performed. -/
def PubMedClient.search_and_fetch (env : PubMedEnv) :
    List Article × List PubMedCall :=
  if env.searchPmids.isEmpty then
    ([], [PubMedCall.search])
  else
    (env.fetchResult env.searchPmids,
     [PubMedCall.search, PubMedCall.fetch env.searchPmids])

/-! ## Agent core (src/medlit/agent/medlit_agent.py) -/

/-- The synthesis dictionary parsed out of the LLM completion by
_synthesize_evidence. Absent keys are the none case. -/
structure SynthesisData where
  summary : Option String := none
  evidence_quality : Option String := none
  limitations : List String := []
  consensus : Option String := none
deriving DecidableEq, Repr

/-- MedLitAgent._synthesize_evidence, after the LLM completion has been
parsed into a synthesis dictionary: build the citations from the fetched
articles, build the Evidence whose quality is the enum lookup of the
evidence_quality value provided by the LLM (default unknown), and assemble
the SUCCESS response. An enum lookup failure is logged and re-raised. -/
def MedLitAgent._synthesize_evidence (question : String) (articles : List Article)
    (synthesis : SynthesisData) : Except String AgentResponse :=
  let citations : List Citation := articles.map (fun article =>
    { pmid := article.pmid,
      title := article.title,
      authors := article.first_author ++
        (if article.authors.length > 1 then " et al." else ""),
      year := article.year,
      journal := if article.journal_abbrev ≠ "" then article.journal_abbrev
                 else article.journal })
  match EvidenceQuality.ofValue ((synthesis.evidence_quality).getD "unknown") with
  | .error e => .error e
  | .ok quality =>
    let evidence : Evidence :=
      { summary := (synthesis.summary).getD "",
        quality := quality,
        supporting_citations := citations,
        conflicting_citations := [],
        limitations := synthesis.limitations,
        consensus := synthesis.consensus }
    .ok { question := question,
          status := .SUCCESS,
          answer := (synthesis.summary).getD "",
          evidence := some evidence,
          citations := citations,
          pubmed_query := "",
          articles_found := articles.length,
          articles_analyzed := articles.length,
          error_message := none,
          disclaimer := MEDICAL_DISCLAIMER }

/-- MedLitAgent._run_agent, after query generation: search and fetch, return
the NO_RESULTS response when no articles came back, otherwise synthesize.
The search_query argument is the query as returned by the LLM-backed
_generate_search_query step; the trace of PubMed operations is returned. -/
def MedLitAgent._run_agent (question : String) (search_query : SearchQuery)
    (env : PubMedEnv) (synthesis : SynthesisData) :
    Except String AgentResponse × List PubMedCall :=
  let sf := PubMedClient.search_and_fetch env
  if sf.1.isEmpty then
    (.ok { question := question,
           status := .NO_RESULTS,
           answer := "",
           evidence := none,
           citations := [],
           pubmed_query := search_query.build_query,
           articles_found := 0,
           articles_analyzed := 0,
           error_message := none,
           disclaimer := MEDICAL_DISCLAIMER }, sf.2)
  else
    (MedLitAgent._synthesize_evidence question sf.1 synthesis, sf.2)

/-- MedLitAgent.ask: the caller-facing boundary. The pipeline argument is
the outcome of the awaited _run_agent call, with the error case standing
for any exception escaping it; the boundary converts that exception into an
ERROR response carrying its message. -/
def MedLitAgent.ask (question : String) (pipeline : Except String AgentResponse) :
    AgentResponse :=
  match pipeline with
  | .ok response => response
  | .error e =>
    { question := question,
      status := .ERROR,
      answer := "",
      evidence := none,
      citations := [],
      pubmed_query := "",
      articles_found := 0,
      articles_analyzed := 0,
      error_message := some e,
      disclaimer := MEDICAL_DISCLAIMER }

/-! ## Evidence fetch tool (src/medlit/agent/tools/evidence_fetch.py) -/

/-- The serialized article dictionary returned by the tool. -/
structure ArticleData where
  pmid : String
  title : String
  abstract : String
  authors : String
  journal : String
  year : Option Int
  article_type : Option String
  pubmed_url : String
deriving DecidableEq, Repr

/-- The dictionary returned by fetch_evidence. The error-shaped dictionary
has success false and an error message; the success-shaped one has the
serialized articles and their count. -/
structure FetchEvidenceResult where
  success : Bool
  error : Option String := none
  articles : List ArticleData := []
  count : Option Nat := none
deriving DecidableEq, Repr

/-- Serialization of one Article inside fetch_evidence. -/
def articleToData (article : Article) : ArticleData :=
  { pmid := article.pmid,
    title := article.title,
    abstract := article.abstract,
    authors := article.first_author ++
      (if article.authors.length > 1 then " et al." else ""),
    journal := article.journal,
    year := article.year,
    article_type := article.article_type,
    pubmed_url := article.pubmed_url }

/-- fetch_evidence: reject an empty identifier list, truncate to the first
20 identifiers, fetch once, serialize. The clientFetch argument models
PubMedClient.fetch, with the error case standing for a raised exception;
the second component is the trace of fetch calls made. -/
def fetch_evidence (pmids : List String)
    (clientFetch : List String → Except String (List Article)) :
    FetchEvidenceResult × List (List String) :=
  if pmids.isEmpty then
    ({ success := false, error := some "No PMIDs provided", articles := [] }, [])
  else
    let truncated := pmids.take 20
    match clientFetch truncated with
    | .ok articles =>
      ({ success := true,
         articles := articles.map articleToData,
         count := some articles.length }, [truncated])
    | .error e =>
      ({ success := false, error := some e, articles := [] }, [truncated])

/-! ## Citation accuracy evaluator (tests/evals/evaluators.py)

The evaluator extracts PMIDs from the answer text with four regular
expressions, compares them with the pmid fields of the citation objects,
and scores 0 when a mentioned PMID was not fetched. The regular expressions
are embedded as explicit scanners with the semantics of re.findall on these
patterns: left-to-right non-overlapping matching, advancing one character
after a failed start position. -/

/-- Case-insensitive character comparison. -/
def charIEq (a b : Char) : Bool :=
  a.toLower = b.toLower

/-- Match a literal pattern case-insensitively at the head, returning the
rest of the input. -/
def stripCI : List Char → List Char → Option (List Char)
  | [], rest => some rest
  | _ :: _, [] => none
  | p :: ps, c :: cs => if charIEq p c then stripCI ps cs else none

/-- Greedy run of at most n ASCII digits at the head. -/
def takeDigitsUpTo : Nat → List Char → List Char × List Char
  | 0, l => ([], l)
  | _ + 1, [] => ([], [])
  | n + 1, c :: cs =>
    if c.isDigit then
      let r := takeDigitsUpTo n cs
      (c :: r.1, r.2)
    else
      ([], c :: cs)

/-- One attempted match of the pattern PMID colon, optional whitespace, one
to eight digits (case-insensitive); yields the captured digit group. -/
def matchPmidColon (l : List Char) : Option (String × List Char) :=
  match stripCI "PMID:".toList l with
  | none => none
  | some rest =>
    let dr := takeDigitsUpTo 8 (rest.dropWhile isPySpace)
    if dr.1 = [] then none else some (dr.1.asString, dr.2)

/-- One attempted match of the pattern PMID, mandatory whitespace, one to
eight digits (case-insensitive); yields the captured digit group. -/
def matchPmidSpace (l : List Char) : Option (String × List Char) :=
  match stripCI "PMID".toList l with
  | none => none
  | some rest =>
    if (rest.takeWhile isPySpace).isEmpty then none
    else
      let dr := takeDigitsUpTo 8 (rest.dropWhile isPySpace)
      if dr.1 = [] then none else some (dr.1.asString, dr.2)

/-- One attempted match of an opening delimiter, seven or eight digits, and
a closing delimiter; yields the captured digit group. A longer digit run
fails the position, as the regex backtracking does. -/
def matchDelimDigits (openC closeC : Char) (l : List Char) :
    Option (String × List Char) :=
  match l with
  | [] => none
  | c :: cs =>
    if c = openC then
      let run := cs.takeWhile Char.isDigit
      let rest := cs.dropWhile Char.isDigit
      if run.length = 7 ∨ run.length = 8 then
        match rest with
        | r :: rs => if r = closeC then some (run.asString, rs) else none
        | [] => none
      else none
    else none

/-- re.findall semantics for one pattern: scan left to right, emit the
captured group of each non-overlapping match, advance past each match and
one character past each failed position. The fuel is the input length. -/
def scanAll (m : List Char → Option (String × List Char)) :
    Nat → List Char → List String
  | 0, _ => []
  | _ + 1, [] => []
  | fuel + 1, c :: cs =>
    match m (c :: cs) with
    | some gr => gr.1 :: scanAll m fuel gr.2
    | none => scanAll m fuel cs

/-- The union of the matches of the four PMID patterns over the answer. -/
def extractMentionedPmids (answer : String) : List String :=
  let chars := answer.toList
  let n := chars.length
  scanAll matchPmidColon n chars ++
  scanAll matchPmidSpace n chars ++
  scanAll (matchDelimDigits '[' ']') n chars ++
  scanAll (matchDelimDigits '(' ')') n chars

/-- citation_accuracy, reduced to its score: 0 for an empty answer; 1 when
no PMID is mentioned; otherwise 0 exactly when some mentioned PMID is
missing from the pmid fields of the citation list. -/
def citation_accuracy_score (answer : String) (citation_pmids : List String) : Nat :=
  if answer = "" then 0
  else
    let mentioned := extractMentionedPmids answer
    if mentioned.isEmpty then 1
    else if mentioned.any (fun m => ! citation_pmids.contains m) then 0
    else 1

/-! ## Spec-modelled set-level quality cascade -/

/-- Modelled from the spec: the set-level quality classification of section
4.4 of the specification, which no function of the source computes (the
agent takes the set-level grade from the LLM output). The grade is HIGH if
any article is a Meta-Analysis or Systematic Review, else MODERATE if any
is a Randomized Controlled Trial or Clinical Trial, else LOW if any is a
Cohort, Case-Control, Case Report, Case Series or Review, else UNKNOWN;
membership of a tier is the per-article classification of
EvidenceQuality.from_article_type. -/
def specQualityCascade (articles : List Article) : EvidenceQuality :=
  if articles.any (fun a => EvidenceQuality.from_article_type a.article_type = .HIGH) then
    .HIGH
  else if articles.any (fun a => EvidenceQuality.from_article_type a.article_type = .MODERATE) then
    .MODERATE
  else if articles.any (fun a => EvidenceQuality.from_article_type a.article_type = .LOW) then
    .LOW
  else
    .UNKNOWN

/-! ## Concrete example data -/

/-- A minimal article typed Meta-Analysis. -/
def metaAnalysisArticle : Article :=
  { pmid := "1", title := "m", article_type := some "Meta-Analysis" }

/-- A minimal article typed Case Report. -/
def caseReportArticle (pmid : String) : Article :=
  { pmid := pmid, title := "c", article_type := some "Case Report" }

/-- A minimal article typed Letter. -/
def letterArticle : Article :=
  { pmid := "9", title := "l", article_type := some "Letter" }

/-- One Meta-Analysis together with four Case Reports. -/
def mixedQualitySet : List Article :=
  [metaAnalysisArticle, caseReportArticle "2", caseReportArticle "3",
   caseReportArticle "4", caseReportArticle "5"]

/-- Four Case Reports. -/
def caseReportSet : List Article :=
  [caseReportArticle "2", caseReportArticle "3", caseReportArticle "4",
   caseReportArticle "5"]

/-- A query whose fields and filters are all empty. -/
def emptySearchQuery : SearchQuery :=
  { original_question := "x", filters := ⟨none, none, [], "", ""⟩ }

/-- Twenty-one distinct identifiers. -/
def pmidList21 : List String :=
  ["p01", "p02", "p03", "p04", "p05", "p06", "p07", "p08", "p09", "p10",
   "p11", "p12", "p13", "p14", "p15", "p16", "p17", "p18", "p19", "p20",
   "p21"]

/-! ## Helper lemmas -/

/-- Totality of the date order: b is not strictly below a exactly when a is
at or below b. -/
theorem pyDate_not_lt_iff_le (a b : PyDate) :
    PyDate.lt b a = false ↔ PyDate.le a b = true := by
  obtain ⟨ay, am, ad⟩ := a
  obtain ⟨by_, bm, bd⟩ := b
  simp [PyDate.lt, PyDate.le, PyDate.mk.injEq]
  omega

/-! ## Claim theorems -/

/-- C1: for every SearchQuery, build_query selects exactly one topic clause
by precedence (the pre-formatted query if non-empty, else the MeSH terms
joined with OR and suffixed with the MeSH field marker, else the free
search terms joined with AND, each wrapped in parentheses, else no topic
clause), then appends the species filter, the language filter, and each
article-type filter in that fixed order, joining all clauses with AND; with
no topic clause and no filters the result is the empty string. -/
theorem C1_build_query_shape (q : SearchQuery) :
    q.build_query =
      String.intercalate " AND "
        ((if q.pubmed_query ≠ "" then
            ["(" ++ q.pubmed_query ++ ")"]
          else if q.mesh_terms ≠ [] then
            ["(" ++ String.intercalate " OR "
                (q.mesh_terms.map (fun t => t ++ "[MeSH]")) ++ ")"]
          else if q.search_terms ≠ [] then
            ["(" ++ String.intercalate " AND " q.search_terms ++ ")"]
          else []) ++
         ((if q.filters.species ≠ "" then [q.filters.species ++ "[filter]"] else []) ++
          (if q.filters.language ≠ "" then [q.filters.language ++ "[la]"] else []) ++
          q.filters.article_types.map (fun t => t ++ "[pt]"))) ∧
    (q.pubmed_query = "" → q.mesh_terms = [] → q.search_terms = [] →
      q.filters.species = "" → q.filters.language = "" →
      q.filters.article_types = [] → q.build_query = "") := by
  constructor
  · rfl
  · intro h1 h2 h3 h4 h5 h6
    simp [SearchQuery.build_query, SearchFilters.to_query_filters,
      h1, h2, h3, h4, h5, h6, String.intercalate]

/-- C1 witness: the all-empty query builds the empty string. -/
theorem C1_build_query_shape_witness : emptySearchQuery.build_query = "" :=
  (C1_build_query_shape emptySearchQuery).2 rfl rfl rfl rfl rfl rfl

/-- C2 counterexample: on the set of one Meta-Analysis and four Case
Reports, the grade the agent stores is whatever the LLM synthesis output
carries (here low), not the HIGH grade of the claimed deterministic
cascade, so the set-level grade is not computed from the article types. -/
theorem C2_counterexample :
    (MedLitAgent._synthesize_evidence "q" mixedQualitySet
        { evidence_quality := some "low" }).map
      (fun r => r.evidence.map Evidence.quality) =
        .ok (some EvidenceQuality.LOW) ∧
    specQualityCascade mixedQualitySet = EvidenceQuality.HIGH ∧
    EvidenceQuality.LOW ≠ EvidenceQuality.HIGH := by
  refine ⟨by rfl, by decide, by decide⟩

/-- C2 amended: the deterministic priority cascade exists per article type
as EvidenceQuality.from_article_type, and its set-level lift (modelled from
the spec as specQualityCascade) grades the three example sets HIGH, LOW and
UNKNOWN; but the set-level grade stored by _synthesize_evidence is the enum
lookup of the LLM-provided evidence_quality value and is independent of the
articles and their types. -/
theorem C2_amended_quality_grading :
    EvidenceQuality.from_article_type (some "Meta-Analysis") = .HIGH ∧
    EvidenceQuality.from_article_type (some "Systematic Review") = .HIGH ∧
    EvidenceQuality.from_article_type (some "Randomized Controlled Trial") = .MODERATE ∧
    EvidenceQuality.from_article_type (some "Clinical Trial") = .MODERATE ∧
    EvidenceQuality.from_article_type (some "Cohort Study") = .LOW ∧
    EvidenceQuality.from_article_type (some "Case Report") = .LOW ∧
    EvidenceQuality.from_article_type (some "Letter") = .UNKNOWN ∧
    EvidenceQuality.from_article_type none = .UNKNOWN ∧
    specQualityCascade mixedQualitySet = .HIGH ∧
    specQualityCascade caseReportSet = .LOW ∧
    specQualityCascade [letterArticle] = .UNKNOWN ∧
    (∀ question question2 articles articles2 synthesis,
      (MedLitAgent._synthesize_evidence question articles synthesis).map
          (fun r => r.evidence.map Evidence.quality) =
      (MedLitAgent._synthesize_evidence question2 articles2 synthesis).map
          (fun r => r.evidence.map Evidence.quality)) := by
  refine ⟨by decide, by decide, by decide, by decide, by decide, by decide,
    by decide, by decide, by decide, by decide, by decide, ?_⟩
  intro question question2 articles articles2 synthesis
  unfold MedLitAgent._synthesize_evidence
  cases h : EvidenceQuality.ofValue ((synthesis.evidence_quality).getD "unknown") <;>
    simp [h, Except.map]

/-- C5: the ask boundary is a total function into AgentResponse; an
exception escaping the pipeline (the error case) is converted into a
response with status ERROR whose error_message carries the message, and a
pipeline response is passed through unchanged. -/
theorem C5_ask_error_boundary (question : String) :
    (∀ e, (MedLitAgent.ask question (.error e)).status = .ERROR ∧
          (MedLitAgent.ask question (.error e)).error_message = some e ∧
          (MedLitAgent.ask question (.error e)).question = question) ∧
    (∀ r, MedLitAgent.ask question (.ok r) = r) :=
  ⟨fun _ => ⟨rfl, rfl, rfl⟩, fun _ => rfl⟩

/-- C6: constructing SearchFilters with both dates present and
min_date > max_date fails validation at construction time; construction
succeeds whenever min_date is at or below max_date or either date is
absent. -/
theorem C6_searchfilters_date_validation (minD maxD : Option PyDate)
    (ats : List String) (sp lang : String) :
    (∀ a b, minD = some a → maxD = some b → PyDate.lt b a = true →
      SearchFilters.mk_validated minD maxD ats sp lang =
        .error "min_date must be before max_date") ∧
    (∀ a b, minD = some a → maxD = some b → PyDate.le a b = true →
      SearchFilters.mk_validated minD maxD ats sp lang =
        .ok ⟨minD, maxD, ats, sp, lang⟩) ∧
    (minD = none →
      SearchFilters.mk_validated minD maxD ats sp lang =
        .ok ⟨minD, maxD, ats, sp, lang⟩) ∧
    (maxD = none →
      SearchFilters.mk_validated minD maxD ats sp lang =
        .ok ⟨minD, maxD, ats, sp, lang⟩) := by
  refine ⟨?_, ?_, ?_, ?_⟩
  · intro a b ha hb hlt
    subst ha; subst hb
    simp [SearchFilters.mk_validated, hlt]
  · intro a b ha hb hle
    subst ha; subst hb
    have hlt : PyDate.lt b a = false := (pyDate_not_lt_iff_le a b).mpr hle
    simp [SearchFilters.mk_validated, hlt]
  · intro h; subst h
    simp [SearchFilters.mk_validated]
  · intro h; subst h
    cases minD <;> simp [SearchFilters.mk_validated]

/-- C6 witness: an inverted range is rejected, an ordered range and a
half-open range are accepted. -/
theorem C6_searchfilters_date_validation_witness :
    SearchFilters.mk_validated (some ⟨2024, 1, 2⟩) (some ⟨2024, 1, 1⟩)
        [] "humans" "english" = .error "min_date must be before max_date" ∧
    SearchFilters.mk_validated (some ⟨2024, 1, 1⟩) (some ⟨2024, 1, 2⟩)
        [] "humans" "english" =
      .ok ⟨some ⟨2024, 1, 1⟩, some ⟨2024, 1, 2⟩, [], "humans", "english"⟩ ∧
    SearchFilters.mk_validated none (some ⟨2024, 1, 1⟩) [] "humans" "english" =
      .ok ⟨none, some ⟨2024, 1, 1⟩, [], "humans", "english"⟩ :=
  ⟨(C6_searchfilters_date_validation _ _ _ _ _).1 _ _ rfl rfl (by decide),
   (C6_searchfilters_date_validation _ _ _ _ _).2.1 _ _ rfl rfl (by decide),
   (C6_searchfilters_date_validation _ _ _ _ _).2.2.1 rfl⟩

/-- C8: when the search returns zero identifiers, search_and_fetch
short-circuits to the empty list and performs no fetch call, and the agent
returns the NO_RESULTS response with zero articles found, again without any
fetch call in the trace. -/
theorem C8_empty_search_short_circuits (question : String) (q : SearchQuery)
    (fetchFn : List String → List Article) (synthesis : SynthesisData) :
    (PubMedClient.search_and_fetch ⟨[], fetchFn⟩).1 = [] ∧
    (∀ ps, PubMedCall.fetch ps ∉ (PubMedClient.search_and_fetch ⟨[], fetchFn⟩).2) ∧
    ((MedLitAgent._run_agent question q ⟨[], fetchFn⟩ synthesis).1.map
        AgentResponse.status = .ok .NO_RESULTS) ∧
    ((MedLitAgent._run_agent question q ⟨[], fetchFn⟩ synthesis).1.map
        AgentResponse.articles_found = .ok 0) ∧
    (∀ ps, PubMedCall.fetch ps ∉
        (MedLitAgent._run_agent question q ⟨[], fetchFn⟩ synthesis).2) := by
  refine ⟨rfl, ?_, rfl, rfl, ?_⟩ <;>
    intro ps <;>
    simp [PubMedClient.search_and_fetch, MedLitAgent._run_agent]

/-- C10: a fetch_evidence call with more than 20 identifiers performs
exactly one fetch, on the first 20 identifiers in their given order, and
(whenever the modelled fetch returns only articles for requested
identifiers) every article of the result belongs to those first 20, so no
article for a discarded identifier appears. -/
theorem C10_fetch_evidence_truncates (pmids : List String)
    (clientFetch : List String → Except String (List Article))
    (h20 : 20 < pmids.length)
    (hfetch : ∀ ids articles, clientFetch ids = .ok articles →
        ∀ a ∈ articles, a.pmid ∈ ids) :
    (fetch_evidence pmids clientFetch).2 = [pmids.take 20] ∧
    (∀ d ∈ (fetch_evidence pmids clientFetch).1.articles,
        d.pmid ∈ pmids.take 20) := by
  have hne : pmids.isEmpty = false := by
    cases pmids with
    | nil => simp at h20
    | cons a l => rfl
  unfold fetch_evidence
  rw [hne]
  simp only [Bool.false_eq_true, if_false]
  cases h : clientFetch (pmids.take 20) with
  | error e => exact ⟨rfl, by simp⟩
  | ok articles =>
    refine ⟨rfl, ?_⟩
    intro d hd
    simp only [List.mem_map] at hd
    obtain ⟨a, ha, rfl⟩ := hd
    exact hfetch _ _ h a ha

/-- C10 witness: at twenty-one identifiers and a fetch returning no
articles, the single fetch call carries the first twenty identifiers. -/
theorem C10_fetch_evidence_truncates_witness :
    (fetch_evidence pmidList21 (fun _ => Except.ok [])).2 = [pmidList21.take 20] ∧
    (∀ d ∈ (fetch_evidence pmidList21 (fun _ => Except.ok [])).1.articles,
        d.pmid ∈ pmidList21.take 20) :=
  C10_fetch_evidence_truncates pmidList21 (fun _ => Except.ok []) (by decide)
    (by intro ids articles h a ha
        cases h
        simp at ha)

/-! ## Concrete XML fixtures -/

/-- An element with children only. -/
def elN (tag : String) (children : List Elem) : Elem :=
  .mk tag [] none none children

/-- A leaf element with text. -/
def elT (tag text : String) : Elem :=
  .mk tag [] (some text) none []

/-- An esearch payload with three identifiers. -/
def searchPayload3 : Elem :=
  elN "eSearchResult"
    [elT "Count" "3",
     elN "IdList" [elT "Id" "38123456", elT "Id" "37654321", elT "Id" "36987654"]]

/-- An esearch payload with an empty identifier list. -/
def emptyIdListPayload : Elem :=
  elN "eSearchResult" [elT "Count" "0", elN "IdList" []]

/-- A minimal well-formed article record. -/
def goodRecord (pmid title : String) : Elem :=
  elN "PubmedArticle"
    [elN "MedlineCitation"
      [elT "PMID" pmid,
       elN "Article" [elT "ArticleTitle" title]]]

/-- The article a minimal well-formed record parses to. -/
def goodArticleValue (pmid title : String) : Article :=
  { pmid := pmid, title := title }

/-- A record whose author list makes the record parser raise: the ForeName
element is present but empty, so the pydantic Author construction receives
None for a plain string field. -/
def badAuthorRecord : Elem :=
  elN "PubmedArticle"
    [elN "MedlineCitation"
      [elT "PMID" "222",
       elN "Article"
         [elT "ArticleTitle" "B",
          elN "AuthorList"
            [elN "Author" [elT "LastName" "Smith", elN "ForeName" []]]]]]

/-- A payload with two good records around one raising record. -/
def mixedPayload : Elem :=
  elN "PubmedArticleSet" [goodRecord "111" "A", badAuthorRecord, goodRecord "333" "C"]

/-- A record with a parsable PMID but no ArticleTitle element. -/
def titlelessRecord : Elem :=
  elN "PubmedArticle"
    [elN "MedlineCitation" [elT "PMID" "123", elN "Article" []]]

/-- A payload holding only the titleless record. -/
def titlelessPayload : Elem :=
  elN "PubmedArticleSet" [titlelessRecord]

/-! ## Parser lemmas -/

/-- The accumulating loop of parse_articles is a filterMap: an error result
is skipped and every later record is still processed. -/
theorem foldl_parseArticleStep (l : List Elem) (acc : List Article) :
    l.foldl parseArticleStep acc = acc ++ l.filterMap parseArticleKeep := by
  induction l generalizing acc with
  | nil => simp
  | cons x xs ih =>
    simp only [List.foldl_cons, List.filterMap_cons]
    cases hfx : _parse_single_article x with
    | error e => simp [parseArticleStep, parseArticleKeep, hfx, ih]
    | ok o =>
      cases o with
      | none => simp [parseArticleStep, parseArticleKeep, hfx, ih]
      | some a => simp [parseArticleStep, parseArticleKeep, hfx, ih]

/-- A record accepted by _parse_single_article carries a non-empty pmid. -/
theorem parse_single_article_pmid_nonempty (el : Elem) (a : Article)
    (h : _parse_single_article el = .ok (some a)) : a.pmid ≠ "" := by
  unfold _parse_single_article at h
  repeat' split at h
  all_goals
    first
      | (subst h; simp_all)
      | (simp only [Except.ok.injEq, Option.some.injEq] at h
         subst h
         simp_all)
      | simp at h

/-- C3 counterexample: a record carrying a PMID but no ArticleTitle element
is not dropped; it is emitted as an article whose title is the empty
string, refuting the non-empty-title invariant. -/
theorem C3_counterexample :
    (parse_articles (.ok titlelessPayload)).map (fun a => (a.pmid, a.title)) =
      [("123", "")] := by
  rfl

/-- C3 amended: every article in a parsed result has a non-empty pmid, and
a record from which the pmid (or the citation or article body) cannot be
extracted is dropped rather than emitted; the title, however, may be empty,
since a missing title element is read as the empty string. -/
theorem C3_amended_pmid_nonempty (xml : Except String Elem) :
    ∀ a ∈ parse_articles xml, a.pmid ≠ "" := by
  intro a ha
  cases xml with
  | error e => simp [parse_articles] at ha
  | ok root =>
    rw [show parse_articles (.ok root) =
        List.foldl parseArticleStep [] (root.findallDesc "PubmedArticle") from rfl,
      foldl_parseArticleStep] at ha
    simp only [List.nil_append, List.mem_filterMap] at ha
    obtain ⟨el, _, hel⟩ := ha
    unfold parseArticleKeep at hel
    cases hps : _parse_single_article el with
    | error e => rw [hps] at hel; simp at hel
    | ok o =>
      cases o with
      | none => rw [hps] at hel; simp at hel
      | some b =>
        rw [hps] at hel
        simp only [Option.some.injEq] at hel
        subst hel
        exact parse_single_article_pmid_nonempty el _ hps

/-- C3 amended witness: the first article of the mixed payload has a
non-empty pmid. -/
theorem C3_amended_pmid_nonempty_witness : (goodArticleValue "111" "A").pmid ≠ "" :=
  C3_amended_pmid_nonempty (.ok mixedPayload) (goodArticleValue "111" "A")
    (by rw [show parse_articles (.ok mixedPayload) =
          [goodArticleValue "111" "A", goodArticleValue "333" "C"] from rfl]
        exact List.mem_cons_self _ _)

/-- C4: both parsers map a top-level XML parse error (the error input) to
the empty list; within a well-formed payload, parse_articles is the
filterMap that skips every record whose parsing raises while still parsing
all remaining records; parse_search_results yields exactly the non-empty
identifier texts of the first IdList, in document order; concretely, the
three-identifier payload yields its three identifiers in order, the
empty-IdList payload yields the empty list, and the mixed payload whose
middle record raises still yields both surrounding articles. -/
theorem C4_parser_error_handling :
    (∀ e : String, parse_search_results (.error e) = [] ∧
        parse_articles (.error e) = []) ∧
    (∀ root : Elem, parse_articles (.ok root) =
      (root.findallDesc "PubmedArticle").filterMap parseArticleKeep) ∧
    (∀ root : Elem, parse_search_results (.ok root) =
      (match root.findDesc "IdList" with
       | none => []
       | some id_list =>
         (id_list.findallChild "Id").filterMap (fun id_elem =>
           match id_elem.text with
           | some t => if t ≠ "" then some t else none
           | none => none))) ∧
    parse_search_results (.ok searchPayload3) = ["38123456", "37654321", "36987654"] ∧
    parse_search_results (.ok emptyIdListPayload) = [] ∧
    _parse_single_article badAuthorRecord =
      .error "ValidationError: Input should be a valid string" ∧
    parse_articles (.ok mixedPayload) =
      [goodArticleValue "111" "A", goodArticleValue "333" "C"] := by
  refine ⟨fun e => ⟨rfl, rfl⟩, ?_, fun root => rfl, by rfl, by rfl, by rfl, by rfl⟩
  intro root
  rw [show parse_articles (.ok root) =
      List.foldl parseArticleStep [] (root.findallDesc "PubmedArticle") from rfl,
    foldl_parseArticleStep]
  simp

/-- The print/issue fallback of the date precedence claim: the PubDate
under Journal when both exist, else no date at all. -/
def fallbackPubDate (article_info : Elem) : Option PyDate × Option Int :=
  match article_info.findDesc "Journal" with
  | none => (none, none)
  | some journal =>
    match journal.findDesc "PubDate" with
    | none => (none, none)
    | some pub_date_elem => _extract_date_from_element pub_date_elem

/-- A date element that resolves no year also resolves no date. -/
theorem extract_date_fst_none_of_snd_none (d : Elem)
    (h : (_extract_date_from_element d).2 = none) :
    (_extract_date_from_element d).1 = none := by
  unfold _extract_date_from_element at h ⊢
  cases hy : d.findChild "Year" with
  | none => simp [hy]
  | some ye =>
    cases hyt : ye.text with
    | none => simp [hy, hyt]
    | some t =>
      by_cases ht : t = ""
      · simp [hy, hyt, ht]
      · cases hpi : pyInt t with
        | none => simp [hy, hyt, ht, hpi]
        | some y =>
          simp only [hy, hyt, if_neg ht, hpi] at h
          cases hmk : mkDate y (monthFromElem d) (dayFromElem d) <;>
            rw [hmk] at h <;> simp at h

/-- A sample date element with an abbreviated month. -/
def sampleDateElem : Elem :=
  elN "PubDate" [elT "Year" "2023", elT "Month" "Sep", elT "Day" "15"]

/-- C7: publication-date extraction prefers the electronic ArticleDate and
falls back to the print/issue PubDate exactly when the electronic date is
absent or resolves no year; within a date element the year is mandatory
(absent, empty or unparseable year text resolves nothing), a resolved year
yields the date built from the month and day defaults (month defaulting to
January when absent, understood as a numeral or a case-insensitive
recognized three-letter abbreviation, defaulting to January when the
abbreviation is unrecognized; day defaulting to 1 when absent or
unparseable), and the resolved year is kept even when no full date can be
constructed. -/
theorem C7_publication_date_rules :
    (∀ ai d y, ai.findDesc "ArticleDate" = some d →
      (_extract_date_from_element d).2 = some y →
      _parse_publication_date ai = _extract_date_from_element d) ∧
    (∀ ai, ai.findDesc "ArticleDate" = none →
      _parse_publication_date ai = fallbackPubDate ai) ∧
    (∀ ai d, ai.findDesc "ArticleDate" = some d →
      (_extract_date_from_element d).2 = none →
      _parse_publication_date ai = fallbackPubDate ai) ∧
    (∀ d, d.findChild "Year" = none →
      _extract_date_from_element d = (none, none)) ∧
    (∀ d ye, d.findChild "Year" = some ye → ye.text = none →
      _extract_date_from_element d = (none, none)) ∧
    (∀ d ye t, d.findChild "Year" = some ye → ye.text = some t →
      pyInt t = none → _extract_date_from_element d = (none, none)) ∧
    (∀ d ye t y, d.findChild "Year" = some ye → ye.text = some t →
      pyInt t = some y →
      _extract_date_from_element d =
        (mkDate y (monthFromElem d) (dayFromElem d), some y)) ∧
    (∀ s n, pyInt s = some n → _parse_month s = n) ∧
    (∀ s p, pyInt s = none →
      monthMap.find? (fun q => q.1 = ((pyLower s).toList.take 3).asString) = some p →
      _parse_month s = p.2) ∧
    (∀ s, pyInt s = none →
      monthMap.find? (fun q => q.1 = ((pyLower s).toList.take 3).asString) = none →
      _parse_month s = 1) := by
  refine ⟨?_, ?_, ?_, ?_, ?_, ?_, ?_, ?_, ?_, ?_⟩
  · intro ai d y hd hy
    unfold _parse_publication_date
    simp only [hd, hy]
  · intro ai hd
    unfold _parse_publication_date fallbackPubDate
    simp only [hd]
  · intro ai d hd hy
    have h1 := extract_date_fst_none_of_snd_none d hy
    unfold _parse_publication_date fallbackPubDate
    simp only [hd, hy]
    have hpair : _extract_date_from_element d = (none, none) := by
      rw [show _extract_date_from_element d =
          ((_extract_date_from_element d).1, (_extract_date_from_element d).2) from rfl,
        h1, hy]
    cases hj : ai.findDesc "Journal" with
    | none => simp [hpair]
    | some j =>
      cases hp : j.findDesc "PubDate" <;> simp [hp, hpair]
  · intro d h
    unfold _extract_date_from_element
    simp [h]
  · intro d ye h ht
    unfold _extract_date_from_element
    simp [h, ht]
  · intro d ye t h ht hpi
    unfold _extract_date_from_element
    by_cases hne : t = ""
    · simp [h, ht, hne]
    · simp [h, ht, hne, hpi]
  · intro d ye t y h ht hpi
    have hne : t ≠ "" := by
      intro he
      rw [he, show pyInt "" = none from rfl] at hpi
      exact Option.noConfusion hpi
    unfold _extract_date_from_element
    simp only [h, ht, if_neg hne, hpi]
    cases hmk : mkDate y (monthFromElem d) (dayFromElem d) <;> simp [hmk]
  · intro s n h
    unfold _parse_month
    simp [h]
  · intro s p hpi hf
    unfold _parse_month
    simp only [String.toList] at hf
    simp [hpi, hf]
  · intro s hpi hf
    unfold _parse_month
    simp only [String.toList] at hf
    simp [hpi, hf]

/-- C7 witness: a date element with year 2023, month Sep and day 15
resolves to the fifteenth of September 2023 with the year kept, and a
numeric month string is taken as given. -/
theorem C7_publication_date_rules_witness :
    _extract_date_from_element sampleDateElem = (some ⟨2023, 9, 15⟩, some 2023) ∧
    _parse_month "11" = 11 := by
  constructor
  · have h := C7_publication_date_rules.2.2.2.2.2.2.1 sampleDateElem
      (elT "Year" "2023") "2023" 2023 rfl rfl rfl
    rw [h]
    rfl
  · exact C7_publication_date_rules.2.2.2.2.2.2.2.1 "11" 11 rfl

/-- The evaluator score on a non-empty answer, with the let bindings
unfolded. -/
theorem citation_accuracy_score_eq (answer : String) (c : List String)
    (hne : answer ≠ "") :
    citation_accuracy_score answer c =
      if (extractMentionedPmids answer).isEmpty then 1
      else if (extractMentionedPmids answer).any (fun m => ! c.contains m) then 0
      else 1 := by
  unfold citation_accuracy_score
  rw [if_neg hne]

/-- C9: on a non-empty answer, the citation-consistency check passes with
score 1 exactly when every PMID the text mentions is among the pmids of the
citation list built from fetched articles, and flags a violation with score
0 exactly when the text mentions a PMID outside that list; the flag is a
returned score, not a raised exception, since the evaluator is a total
function. -/
theorem C9_citation_consistency (answer : String) (citation_pmids : List String)
    (hne : answer ≠ "") :
    (citation_accuracy_score answer citation_pmids = 1 ↔
      ∀ m ∈ extractMentionedPmids answer, m ∈ citation_pmids) ∧
    (citation_accuracy_score answer citation_pmids = 0 ↔
      ∃ m ∈ extractMentionedPmids answer, m ∉ citation_pmids) := by
  rw [citation_accuracy_score_eq answer citation_pmids hne]
  by_cases hM : (extractMentionedPmids answer).isEmpty
  · rw [if_pos hM]
    have hnil : extractMentionedPmids answer = [] := by
      simpa using hM
    rw [hnil]
    simp
  · rw [if_neg hM]
    by_cases hA : (extractMentionedPmids answer).any
        (fun m => ! citation_pmids.contains m)
    · rw [if_pos hA]
      have hEx : ∃ m ∈ extractMentionedPmids answer, m ∉ citation_pmids := by
        simpa using hA
      obtain ⟨m, hm, hnot⟩ := hEx
      exact ⟨⟨fun h => absurd h (by decide), fun hall => absurd (hall m hm) hnot⟩,
             ⟨fun _ => ⟨m, hm, hnot⟩, fun _ => rfl⟩⟩
    · rw [if_neg hA]
      have hAll : ∀ m ∈ extractMentionedPmids answer, m ∈ citation_pmids := by
        have := hA
        simp only [List.any_eq_true, Bool.not_eq_true'] at this
        intro m hm
        by_contra hcon
        exact this ⟨m, hm, by simpa using hcon⟩
      exact ⟨⟨fun _ => hAll, fun _ => rfl⟩,
             ⟨fun h => absurd h (by decide),
              fun hex => hex.elim (fun m hm => absurd (hAll m hm.1) hm.2)⟩⟩

/-- C9 witness: an answer citing a fetched PMID scores 1, an answer citing
an unfetched PMID scores 0. -/
theorem C9_citation_consistency_witness :
    citation_accuracy_score "See PMID: 123" ["123"] = 1 ∧
    citation_accuracy_score "See PMID: 999" ["123"] = 0 :=
  ⟨(C9_citation_consistency "See PMID: 123" ["123"] (by decide)).1.mpr (by decide),
   (C9_citation_consistency "See PMID: 999" ["123"] (by decide)).2.mpr (by decide)⟩
